import Mathlib

/-!
Shallow embedding of the schedule-resolution and dispatch engine of the
telegram-bot repository, with theorems settling the specification claims.

Source files embedded:
  - src/bot/utils/excel_parser.py   (ExcelParser)
  - src/bot/utils/audio_converter.py (AudioConverter)
  - src/bot/utils/bot_state.py      (BotStateManager)
  - src/bot/telegram_handler.py     (TelegramBotManager)
  - src/bot/scheduler.py            (SchedulerManager)

External effects (the filesystem, pandas reads, the Telegram network, the
ffmpeg process, the wall clock) are passed in explicitly as oracle
parameters; each Python call site that consults such an effect consults the
corresponding oracle in the embedding.
-/

/-! ### Data model (src/shared/models.py) -/

/-- ScheduleEntry from shared/models.py: one parsed schedule row. -/
structure ScheduleEntry where
  date : String
  path : String
  track_name : String
  enabled : Bool
deriving DecidableEq, Repr

/-! ### Cells and rows as seen through pandas

A pandas cell, as observed by excel_parser._parse_row_dict: it is either a
string, a datetime (Excel date-typed cell, kept as year/month/day), a
boolean, or a missing value (NaN / absent label, which pd.isna reports
as true). -/

inductive Cell
  | strv (s : String)
  | dtv (y m d : Nat)
  | boolv (b : Bool)
  | navalue
deriving DecidableEq, Repr

/-- Embeds pd.isna on a cell. -/
def Cell.isna : Cell → Bool
  | .navalue => true
  | _ => false

/-- Zero-pad a natural number to at least two digits, as strftime does. -/
def pad2 (n : Nat) : String :=
  if n < 10 then "0" ++ toString n else toString n

/-- Zero-pad a natural number to at least four digits, as strftime does. -/
def pad4 (n : Nat) : String :=
  if n < 10 then "000" ++ toString n
  else if n < 100 then "00" ++ toString n
  else if n < 1000 then "0" ++ toString n
  else toString n

/-- Embeds datetime.strftime with the pattern for year-month-day used
throughout the source. -/
def formatDate (y m d : Nat) : String :=
  pad4 y ++ "-" ++ pad2 m ++ "-" ++ pad2 d

/-- Embeds Python str() on a cell value. -/
def Cell.pyStr : Cell → String
  | .strv s => s
  | .dtv y m d => formatDate y m d ++ " 00:00:00"
  | .boolv b => if b then "True" else "False"
  | .navalue => "nan"

/-- Embeds Python bool() truthiness on a cell value: non-empty strings,
datetimes and NaN are truthy, booleans are themselves. -/
def Cell.pyBool : Cell → Bool
  | .strv s => s ≠ ""
  | .dtv _ _ _ => true
  | .boolv b => b
  | .navalue => true

/-- One raw schedule-file row, as the DataFrame presents it to
_parse_row_dict: the Date, Path and Track Name cells (none when the label
is missing; pd.isna is also true then), and the Enabled cell (none when
the Enabled column is absent, in which case row.get supplies Python True). -/
structure RawRow where
  date : Option Cell
  path : Option Cell
  track : Option Cell
  enabled : Option Cell
deriving DecidableEq, Repr

/-- The observable outcome of opening one schedule file: the file is
absent, or the pandas read raises (malformed file), or it yields rows. -/
inductive FileState
  | absent
  | malformed (msg : String)
  | rows (rs : List RawRow)
deriving DecidableEq, Repr

/-! ### ExcelParser (src/bot/utils/excel_parser.py) -/

namespace ExcelParser

/-- Embeds pd.isna(row.get(label)): a missing label or a NaN cell. -/
def cellNa (c : Option Cell) : Bool :=
  match c with
  | none => true
  | some c => c.isna

/-- Embeds ExcelParser._parse_row_dict (excel_parser.py lines 140-171):
drops the row (returns none) when Date, Path or Track Name is missing;
formats a datetime Date cell, stringifies any other; the Enabled column
defaults to True when absent, and the cell is read through bool(). -/
def parse_row_dict (row : RawRow) : Option ScheduleEntry :=
  if cellNa row.date || cellNa row.path || cellNa row.track then none
  else
    let date_str :=
      match row.date with
      | some (.dtv y m d) => formatDate y m d
      | some c => c.pyStr
      | none => "nan"
    some { date := date_str
           path := (row.path.getD .navalue).pyStr
           track_name := (row.track.getD .navalue).pyStr
           enabled := (row.enabled.getD (.boolv true)).pyBool }

/-- Embeds ExcelParser._parse_file (excel_parser.py lines 43-71): an absent
file yields the empty list (with a logged warning); a read that raises is
caught and yields the empty list; otherwise rows are parsed one by one and
the rows _parse_row_dict rejects are skipped. The function is total (it
returns a plain list, never an error): every failure path in the source
returns []. -/
def parse_file (st : FileState) : List ScheduleEntry :=
  match st with
  | .absent => []
  | .malformed _ => []
  | .rows rs => rs.filterMap parse_row_dict

/-- Embeds the schedule-file accumulation loop shared verbatim by
get_today_entries_from_files (lines 94-103) and
get_entries_by_date_from_files (lines 124-132): files are processed in
list order, an absent file is skipped with a warning, and entries from
each present file are appended in their row order. The oracle fs maps a
file name to what opening it observes. -/
def collectEntries (fs : String → FileState) (schedule_files : List String) :
    List ScheduleEntry :=
  schedule_files.foldl
    (fun all_entries filename =>
      if fs filename = .absent then all_entries
      else all_entries ++ parse_file (fs filename))
    []

/-- Embeds ExcelParser.get_entries_by_date_from_files (lines 117-138):
accumulate entries from the named files in order, then filter to the
requested date and enabled flag. -/
def get_entries_by_date_from_files (fs : String → FileState)
    (date_str : String) (schedule_files : List String) : List ScheduleEntry :=
  (collectEntries fs schedule_files).filter
    (fun e => e.date = date_str && e.enabled)

/-- Embeds ExcelParser.get_today_entries_from_files (lines 84-110). The
source computes the target date as datetime.now().strftime on the machine
local clock (line 91); that clock reading is the machineToday oracle. -/
def get_today_entries_from_files (machineToday : String)
    (fs : String → FileState) (schedule_files : List String) :
    List ScheduleEntry :=
  (collectEntries fs schedule_files).filter
    (fun e => e.date = machineToday && e.enabled)

/-- The Schedule Store Reader read_many of spec section 4.1, written from
the spec words: the concatenation of per-source read results strictly in
the order the source names are given (an absent source reads as empty). -/
def read_many (fs : String → FileState) (source_names : List String) :
    List ScheduleEntry :=
  (source_names.map (fun n => parse_file (fs n))).flatten

end ExcelParser

/-! ### AudioConverter (src/bot/utils/audio_converter.py) -/

namespace AudioConverter

/-- A pathlib path as the converter uses it: the parent directory, the
stem, and the suffix (extension with its leading dot, possibly empty).
The pathlib operations consulted by the source (suffix, stem, the slash
join) act on these components. -/
structure PyPath where
  parent : String
  stem : String
  suffix : String
deriving DecidableEq, Repr

/-- Renders a path to the string the filesystem is keyed by. -/
def PyPath.render (p : PyPath) : String :=
  p.parent ++ "/" ++ p.stem ++ p.suffix

/-- The cache directory of AudioConverter.__init__. -/
def temp_dir : String := "/app/data/.audio_cache"

/-- Embeds the Python str.lower call on an extension. -/
def pyLower (s : String) : String := String.mk (s.data.map Char.toLower)

/-- The observable outcome of one ffmpeg subprocess run: clean exit,
timeout of process.communicate, or non-zero return code with its
diagnostic output. -/
inductive FfmpegOutcome
  | success
  | timeout
  | failed (stderr : String)
deriving DecidableEq, Repr

/-- Errors convert_to_ogg raises: FileNotFoundError for a missing source,
the re-raised asyncio.TimeoutError, and the RuntimeError wrapping a
non-zero ffmpeg exit. -/
inductive ConvErr
  | fileNotFound (msg : String)
  | convTimeout
  | ffmpegError (msg : String)
deriving DecidableEq, Repr

/-- Embeds AudioConverter.convert_to_ogg (audio_converter.py lines 18-66).
The filesystem is the oracle fs (existence of a rendered path); the ffmpeg
run outcome is the oracle outcome. Returns the output path, the filesystem
after the call (a successful conversion writes the cache file), and
whether the external converter process was invoked.
Branches in source order: missing source raises; a source whose lowered
suffix is already .ogg or .opus is returned unchanged; an existing cache
file at temp_dir/stem.ogg is returned without conversion; otherwise ffmpeg
runs and on success the cache path is returned. -/
def convert_to_ogg (outcome : FfmpegOutcome) (fs : String → Bool)
    (mp3_path : PyPath) : Except ConvErr (String × (String → Bool) × Bool) :=
  if ¬ fs mp3_path.render then
    .error (.fileNotFound ("Audio file not found: " ++ mp3_path.render))
  else if pyLower mp3_path.suffix = ".ogg" ∨ pyLower mp3_path.suffix = ".opus" then
    .ok (mp3_path.render, fs, false)
  else
    let ogg_path : PyPath := ⟨temp_dir, mp3_path.stem, ".ogg"⟩
    if fs ogg_path.render then
      .ok (ogg_path.render, fs, false)
    else
      match outcome with
      | .success =>
          .ok (ogg_path.render, fun q => (q == ogg_path.render) || fs q, true)
      | .timeout => .error .convTimeout
      | .failed stderr => .error (.ffmpegError ("FFmpeg error: " ++ stderr))

end AudioConverter

/-! ### BotStateManager (src/bot/utils/bot_state.py) -/

/-- The per-bot state dictionary of BotStateManager._default_state, with
the three keys every mutation touches. -/
structure PyBotState where
  last_run : Option String
  last_sent_file : Option String
  last_error : String
deriving DecidableEq, Repr

/-- BotStateManager._default_state. -/
def default_state : PyBotState :=
  { last_run := none, last_sent_file := none, last_error := "" }

namespace BotStateManager

/-- The in-memory states mapping: bot token to its state dict, none when
the token has no entry yet. -/
def States := String → Option PyBotState

/-- The in-memory effect of BotStateManager.update_state (bot_state.py
lines 33-38): insert the default state when the token is absent, then
apply the keyword update u to the entry. -/
def apply_update (states : States) (token : String)
    (u : PyBotState → PyBotState) : States :=
  fun t => if t = token then some (u ((states token).getD default_state))
           else states t

/-- Embeds BotStateManager._save_states (bot_state.py lines 57-64). The
oracle write is the outcome of the mkdir plus json.dump of the whole
mapping; the source wraps it in a try block that catches every Exception
and only logs it, so the function returns normally in both cases. -/
def save_states (write : Except String Unit) : Except String Unit :=
  match write with
  | .ok _ => .ok ()
  | .error _ => .ok ()

/-- Embeds BotStateManager.update_state (bot_state.py lines 33-39): the
in-memory read-modify-write followed by _save_states. The result is the
new states mapping when the call returns normally, or the error it raises
to the caller. -/
def update_state (states : States) (token : String)
    (u : PyBotState → PyBotState) (write : Except String Unit) :
    Except String States :=
  let newStates := apply_update states token u
  match save_states write with
  | .ok _ => .ok newStates
  | .error e => .error e

end BotStateManager

/-! ### TelegramBotManager (src/bot/telegram_handler.py)

The state manager is carried as an explicit tracker value. Besides the
token-to-state mapping it records the trace of mutation methods invoked on
BotStateManager, so that theorems can speak about which calls a code path
performs (the mapping alone cannot distinguish an update that rewrites a
field to its current value from no update at all). -/

namespace TelegramBotManager

/-- The state manager as the delivery code sees it: the in-memory mapping
plus the trace of mutation calls made so far. -/
structure Tracker where
  states : String → Option PyBotState
  log : List String

/-- One BotStateManager mutation: insert-default-if-absent then update,
recorded on the trace. Embeds bot_state.py update_state as invoked from
telegram_handler.py (the flush to disk is swallowed by _save_states and
cannot affect control flow, see BotStateManager.update_state). -/
def mutate (st : Tracker) (token : String) (u : PyBotState → PyBotState)
    (mname : String) : Tracker :=
  { states := BotStateManager.apply_update st.states token u
    log := st.log ++ [mname] }

/-- BotStateManager.set_last_run: stamps the current time now. -/
def set_last_run (st : Tracker) (now token : String) : Tracker :=
  mutate st token (fun s => { s with last_run := some now }) "set_last_run"

/-- BotStateManager.set_last_sent_file. -/
def set_last_sent_file (st : Tracker) (token file_path : String) : Tracker :=
  mutate st token (fun s => { s with last_sent_file := some file_path })
    "set_last_sent_file"

/-- BotStateManager.set_last_error. -/
def set_last_error (st : Tracker) (token error : String) : Tracker :=
  mutate st token (fun s => { s with last_error := error }) "set_last_error"

/-- BotStateManager.clear_error. -/
def clear_error (st : Tracker) (token : String) : Tracker :=
  mutate st token (fun s => { s with last_error := "" }) "clear_error"

/-- The observable outcome of one bot.send_voice attempt: the message is
delivered, or asyncio.wait_for times out, or some other exception is
raised with its message. -/
inductive AttemptOutcome
  | success
  | timeout
  | failed (msg : String)
deriving DecidableEq, Repr

/-- The per-call environment of one send_audio invocation: the
file_validator.verify_file verdict on the payload, the outcome of
convert_to_ogg (the ogg path or the exception message), and the outcome
of each numbered network attempt. -/
structure FileEnv where
  valid : Bool
  conv : Except String String
  attempt : Nat → AttemptOutcome

/-- Embeds the retry loop of send_audio (telegram_handler.py lines
90-146). The Python loop runs attempt = 1 .. max_retries; here remaining
counts the iterations left (remaining = max_retries - attempt + 1 at every
call from send_audio). On success the state updates of lines 118-120 run
in source order and the loop returns true at once; a timeout or exception
on a non-final attempt (attempt < max_retries) sleeps and retries; on the
final attempt it records the distinguishing error and returns false.
The third component counts the network attempts actually performed. -/
def sendLoop (env : FileEnv) (now token file_path : String)
    (max_retries : Nat) (attempt : Nat) (remaining : Nat) (st : Tracker) :
    Bool × Tracker × Nat :=
  match remaining with
  | 0 => (false, st, 0)
  | r + 1 =>
    match env.attempt attempt with
    | .success =>
        let st1 := set_last_sent_file st token file_path
        let st2 := set_last_run st1 now token
        let st3 := clear_error st2 token
        (true, st3, 1)
    | .timeout =>
        if attempt < max_retries then
          let res := sendLoop env now token file_path max_retries
            (attempt + 1) r st
          (res.1, res.2.1, res.2.2 + 1)
        else
          (false, set_last_error st token "Timeout after all retries", 1)
    | .failed msg =>
        if attempt < max_retries then
          let res := sendLoop env now token file_path max_retries
            (attempt + 1) r st
          (res.1, res.2.1, res.2.2 + 1)
        else
          (false, set_last_error st token msg, 1)

/-- Embeds TelegramBotManager.send_audio (telegram_handler.py lines
61-146). bots is the registered-bot mapping self.bots (true when the
token has a live Bot instance). Branches in source order: an unknown
token returns False at once (lines 68-70); a payload failing
verify_file records the error and returns False (lines 73-77);
a conversion exception records the error and returns False (lines 80-87);
otherwise the retry loop runs. Returns the success flag, the tracker
after the call, and the number of network attempts performed. -/
def send_audio (bots : String → Bool) (env : FileEnv)
    (now token chat_id file_path : String) (max_retries : Nat)
    (st : Tracker) : Bool × Tracker × Nat :=
  if ¬ bots token then (false, st, 0)
  else if ¬ env.valid then
    (false, set_last_error st token ("File not found or invalid: " ++ file_path), 0)
  else
    match env.conv with
    | .error e => (false, set_last_error st token e, 0)
    | .ok _ogg_path =>
        sendLoop env now token file_path max_retries 1 max_retries st

/-- Embeds TelegramBotManager.send_multiple_audio (telegram_handler.py
lines 148-169): files are sent strictly in list order through send_audio
with its default max_retries of 3; a success bumps the count (and sleeps
2 seconds, not modelled); a failure is logged and the loop continues with
the next file. fenv gives each file path its per-call environment.
Returns the success count and the tracker after the batch. -/
def send_multiple_audio (bots : String → Bool) (fenv : String → FileEnv)
    (now token chat_id : String) (file_paths : List String) (st : Tracker) :
    Nat × Tracker :=
  file_paths.foldl
    (fun acc file_path =>
      let res := send_audio bots (fenv file_path) now token chat_id
        file_path 3 acc.2
      (acc.1 + (if res.1 then 1 else 0), res.2.1))
    (0, st)

/-- The success verdict of one send_audio call as a pure function of its
environment: used to state that the Boolean result of send_audio does not
depend on the tracker it starts from. -/
def sendLoopVerdict (env : FileEnv) (max_retries attempt remaining : Nat) :
    Bool :=
  match remaining with
  | 0 => false
  | r + 1 =>
    match env.attempt attempt with
    | .success => true
    | .timeout =>
        if attempt < max_retries then
          sendLoopVerdict env max_retries (attempt + 1) r
        else false
    | .failed _ =>
        if attempt < max_retries then
          sendLoopVerdict env max_retries (attempt + 1) r
        else false

/-- The success verdict of send_audio as a pure function of the
registered-bot mapping and the per-call environment. -/
def sendVerdict (bots : String → Bool) (env : FileEnv) (token : String) :
    Bool :=
  if ¬ bots token then false
  else if ¬ env.valid then false
  else
    match env.conv with
    | .error _ => false
    | .ok _ => sendLoopVerdict env 3 1 3

end TelegramBotManager

/-! ### SchedulerManager (src/bot/scheduler.py) -/

namespace SchedulerManager

/-- One bot entry of config.json as _load_schedules reads it: the token,
the chat id, the scheduler_time string, the enabled flag, and the
schedules list (with its source default of a single schedule.xlsx). -/
structure BotCfg where
  bot_token : String
  chat_id : String
  scheduler_time : String
  enabled : Bool
  schedules : List String := ["schedule.xlsx"]
deriving DecidableEq, Repr

/-- One APScheduler job as add_job registers it: the id, the cron hour and
minute, the timezone name, and the args bound for _run_daily_schedule. -/
structure Job where
  id : String
  hour : Nat
  minute : Nat
  tz : String
  bot_token : String
  chat_id : String
  schedules : List String
deriving DecidableEq, Repr

/-- The job id of scheduler.py line 50: schedule_ followed by the first
twenty characters of the token. -/
def jobId (bot_token : String) : String :=
  "schedule_" ++ bot_token.take 20

/-- Embeds scheduler.remove_job wrapped in the try block of lines 53-57:
drops any job with the given id; absence is not an error. -/
def removeJob (jobs : List Job) (jid : String) : List Job :=
  jobs.filter (fun j => j.id ≠ jid)

/-- The hour and minute parsed from scheduler_time at lines 47-48. -/
def parseTime (scheduler_time : String) : Nat × Nat :=
  match (scheduler_time.splitOn ":").map String.toNat? with
  | some h :: some m :: _ => (h, m)
  | _ => (0, 0)

/-- The job add_job registers for one enabled bot (lines 59-72). -/
def mkJob (tz : String) (b : BotCfg) : Job :=
  let hm := parseTime b.scheduler_time
  { id := jobId b.bot_token
    hour := hm.1
    minute := hm.2
    tz := tz
    bot_token := b.bot_token
    chat_id := b.chat_id
    schedules := b.schedules }

/-- Embeds SchedulerManager._load_schedules (scheduler.py lines 38-74)
acting on the job store: for every bot currently in the config, and only
when that bot is enabled, any existing job under its id is removed and a
fresh job is registered. Bots absent from the config, or present but
disabled, are not visited: no job of theirs is touched. -/
def load_schedules (tz : String) (bots : List BotCfg) (jobs : List Job) :
    List Job :=
  bots.foldl
    (fun js b =>
      if b.enabled then removeJob js (jobId b.bot_token) ++ [mkJob tz b]
      else js)
    jobs

/-- Embeds SchedulerManager.reload_schedules (scheduler.py lines 155-159):
it just runs _load_schedules against the current config. -/
def reload_schedules (tz : String) (bots : List BotCfg) (jobs : List Job) :
    List Job :=
  load_schedules tz bots jobs

/-- Embeds SchedulerManager.get_jobs (scheduler.py lines 161-163). -/
def get_jobs (jobs : List Job) : List Job := jobs

end SchedulerManager

/-! ### Concrete fixtures used by witnesses and counterexamples -/

/-- A well-formed raw row with string cells and no Enabled column. -/
def exRow (d p t : String) : RawRow :=
  { date := some (.strv d), path := some (.strv p), track := some (.strv t)
    enabled := none }

/-- A raw row with an explicit Enabled boolean cell. -/
def exRowEn (d p t : String) (en : Bool) : RawRow :=
  { date := some (.strv d), path := some (.strv p), track := some (.strv t)
    enabled := some (.boolv en) }

/-- The entry a well-formed enabled row parses to. -/
def exEntry (d p t : String) : ScheduleEntry :=
  { date := d, path := p, track_name := t, enabled := true }

/-- A malformed row: the Date cell is missing, so _parse_row_dict drops it. -/
def badRow : RawRow :=
  { date := none, path := some (.strv "audio"), track := some (.strv "t.mp3")
    enabled := none }

/-- A two-source store: source a holds rows x and y, source b holds row z,
all dated 2024-01-15; every other name is absent. -/
def fsAB : String → FileState := fun n =>
  if n = "a" then
    .rows [exRow "2024-01-15" "audio" "x.mp3", exRow "2024-01-15" "audio" "y.mp3"]
  else if n = "b" then
    .rows [exRow "2024-01-15" "audio" "z.mp3"]
  else .absent

/-- A store whose only source src holds one enabled row dated 2024-01-16. -/
def fsNextDay : String → FileState := fun n =>
  if n = "src" then .rows [exRow "2024-01-16" "audio" "c.mp3"]
  else .absent

/-! ### Claim theorems: Schedule Store Reader and Date Resolver -/

/-- The accumulation loop shared by the two from-files resolvers equals
the appended concatenation of per-source parses, for any starting
accumulator. -/
theorem collectLoop_eq (fs : String → FileState) :
    ∀ (names : List String) (acc : List ScheduleEntry),
      names.foldl
        (fun all_entries filename =>
          if fs filename = .absent then all_entries
          else all_entries ++ ExcelParser.parse_file (fs filename))
        acc
      = acc ++ ExcelParser.read_many fs names := by
  intro names
  induction names with
  | nil => intro acc; simp [ExcelParser.read_many]
  | cons n rest ih =>
      intro acc
      by_cases h : fs n = .absent
      · simp only [List.foldl_cons, h, if_pos rfl, ih,
          ExcelParser.read_many, List.map_cons, List.flatten_cons]
        simp [h, ExcelParser.parse_file]
      · simp only [List.foldl_cons, if_neg h, ih,
          ExcelParser.read_many, List.map_cons, List.flatten_cons]
        simp [List.append_assoc]

/-- The collectEntries loop produces exactly the read_many concatenation. -/
theorem collectEntries_eq_read_many (fs : String → FileState)
    (names : List String) :
    ExcelParser.collectEntries fs names = ExcelParser.read_many fs names := by
  simpa [ExcelParser.collectEntries] using collectLoop_eq fs names []

/-- C2: the output of the read-many accumulation equals the concatenation
of the per-source read results taken strictly in the order the source
names are given, with within-file row order preserved (each per-source
read is the order-preserving parse of that file); in particular, for the
concrete store where a yields rows x and y and b yields row z, reading in
order a then b gives x, y, z, and reading b then a gives z, x, y. -/
theorem read_many_concatenation_order :
    (∀ (fs : String → FileState) (names : List String),
      ExcelParser.collectEntries fs names
        = (names.map (fun n => ExcelParser.parse_file (fs n))).flatten)
    ∧ ExcelParser.collectEntries fsAB ["a", "b"]
        = [exEntry "2024-01-15" "audio" "x.mp3",
           exEntry "2024-01-15" "audio" "y.mp3",
           exEntry "2024-01-15" "audio" "z.mp3"]
    ∧ ExcelParser.collectEntries fsAB ["b", "a"]
        = [exEntry "2024-01-15" "audio" "z.mp3",
           exEntry "2024-01-15" "audio" "x.mp3",
           exEntry "2024-01-15" "audio" "y.mp3"] := by
  refine ⟨fun fs names => collectEntries_eq_read_many fs names, ?_, ?_⟩ <;> decide

/-- C1: the by-date resolver returns exactly the entries of the read_many
concatenation whose date equals the target and whose enabled flag is true,
in the same relative order (it is the order-preserving filter of
read_many), and it returns the empty list whenever no entry matches —
in particular when all sources are empty or absent. -/
theorem resolve_filters_read_many :
    ∀ (fs : String → FileState) (date_str : String) (names : List String),
      ExcelParser.get_entries_by_date_from_files fs date_str names
        = (ExcelParser.read_many fs names).filter
            (fun e => e.date = date_str && e.enabled)
      ∧ ((∀ e ∈ ExcelParser.read_many fs names,
            ¬(e.date = date_str ∧ e.enabled = true)) →
          ExcelParser.get_entries_by_date_from_files fs date_str names = []) := by
  intro fs date_str names
  have hmain : ExcelParser.get_entries_by_date_from_files fs date_str names
      = (ExcelParser.read_many fs names).filter
          (fun e => e.date = date_str && e.enabled) := by
    simp [ExcelParser.get_entries_by_date_from_files,
      collectEntries_eq_read_many]
  refine ⟨hmain, fun hnone => ?_⟩
  rw [hmain]
  rw [List.filter_eq_nil_iff]
  intro e he
  have := hnone e he
  simp only [Bool.and_eq_true, decide_eq_true_eq]
  intro hcontra
  exact this ⟨hcontra.1, hcontra.2⟩

/-- Witness for C1 at a concrete input: the store fsAB has entries only
for 2024-01-15, so resolving 2024-01-16 matches nothing and returns the
empty list. -/
theorem resolve_filters_read_many_witness :
    ExcelParser.get_entries_by_date_from_files fsAB "2024-01-16" ["a", "b"]
      = [] :=
  (resolve_filters_read_many fsAB "2024-01-16" ["a", "b"]).2 (by decide)

/-- C8: the Schedule Store Reader read path never propagates an error for
expected conditions: an absent file reads as the empty list, a file whose
tabular read raises reads as the empty list, and a malformed row (one
_parse_row_dict drops) is skipped individually — the rows before and
after it are still parsed, so a single bad row never aborts the rest.
The reader returns a plain list, never an exception. -/
theorem reader_error_tolerance :
    ExcelParser.parse_file .absent = []
    ∧ (∀ m, ExcelParser.parse_file (.malformed m) = [])
    ∧ (∀ (l1 : List RawRow) (r : RawRow) (l2 : List RawRow),
        ExcelParser.parse_row_dict r = none →
        ExcelParser.parse_file (.rows (l1 ++ r :: l2))
          = ExcelParser.parse_file (.rows l1)
            ++ ExcelParser.parse_file (.rows l2)) := by
  refine ⟨rfl, fun m => rfl, fun l1 r l2 hr => ?_⟩
  simp [ExcelParser.parse_file, List.filterMap_append, List.filterMap_cons, hr]

/-- Witness for C8 at a concrete input: a row missing its Date cell is
dropped while the well-formed rows on both sides of it still parse. -/
theorem reader_error_tolerance_witness :
    ExcelParser.parse_file
      (.rows ([exRow "2024-01-15" "audio" "x.mp3"] ++ badRow ::
              [exRow "2024-01-15" "audio" "y.mp3"]))
      = ExcelParser.parse_file (.rows [exRow "2024-01-15" "audio" "x.mp3"])
        ++ ExcelParser.parse_file (.rows [exRow "2024-01-15" "audio" "y.mp3"]) :=
  reader_error_tolerance.2.2 [exRow "2024-01-15" "audio" "x.mp3"] badRow
    [exRow "2024-01-15" "audio" "y.mp3"] (by decide)

/-- C6 counterexample: the today resolver binds the target date to the
machine local clock (the datetime.now reading, line 91 of
excel_parser.py), not to a caller-supplied date in the Trigger Scheduler
timezone. Concretely, when the machine local date reads 2024-01-15 while
the current date in the scheduler configured timezone is 2024-01-16, the
resolver returns the machine-date entries (here none) and not the
timezone-date entries, so the calendar boundary is the machine clock. -/
theorem resolve_today_machine_clock_cex :
    ExcelParser.get_today_entries_from_files "2024-01-15" fsNextDay ["src"]
      = []
    ∧ ExcelParser.get_entries_by_date_from_files fsNextDay "2024-01-16" ["src"]
        = [exEntry "2024-01-16" "audio" "c.mp3"]
    ∧ ExcelParser.get_today_entries_from_files "2024-01-15" fsNextDay ["src"]
        ≠ ExcelParser.get_entries_by_date_from_files fsNextDay "2024-01-16"
            ["src"] := by
  refine ⟨?_, ?_, ?_⟩ <;> decide

/-- C6 amended: the today resolver equals the by-date resolver with the
target date bound to the machine local current date — the value of
datetime.now formatted as year-month-day inside the component itself.
No caller-supplied clock parameter exists, so the calendar-date boundary
at trigger fire time follows the machine local clock, not the Trigger
Scheduler configured timezone. -/
theorem resolve_today_is_resolve_at_machine_date :
    ∀ (machineToday : String) (fs : String → FileState)
      (names : List String),
      ExcelParser.get_today_entries_from_files machineToday fs names
        = ExcelParser.get_entries_by_date_from_files fs machineToday names := by
  intro machineToday fs names
  rfl

/-! ### Claim theorems: Trigger Scheduler reload -/

/-- A concrete enabled bot profile. -/
def botA : SchedulerManager.BotCfg :=
  { bot_token := "tokA", chat_id := "chat1"
    scheduler_time := "09:00", enabled := true }

/-- Unfolding of the schedule-loading fold on an enabled config head. -/
theorem load_schedules_cons_enabled (tz : String)
    (b : SchedulerManager.BotCfg) (rest : List SchedulerManager.BotCfg)
    (jobs : List SchedulerManager.Job) (hen : b.enabled = true) :
    SchedulerManager.load_schedules tz (b :: rest) jobs
      = SchedulerManager.load_schedules tz rest
          (SchedulerManager.removeJob jobs
            (SchedulerManager.jobId b.bot_token)
            ++ [SchedulerManager.mkJob tz b]) := by
  simp [SchedulerManager.load_schedules, hen]

/-- Unfolding of the schedule-loading fold on a disabled config head. -/
theorem load_schedules_cons_disabled (tz : String)
    (b : SchedulerManager.BotCfg) (rest : List SchedulerManager.BotCfg)
    (jobs : List SchedulerManager.Job) (hen : b.enabled = false) :
    SchedulerManager.load_schedules tz (b :: rest) jobs
      = SchedulerManager.load_schedules tz rest jobs := by
  simp [SchedulerManager.load_schedules, hen]

/-- C5 counterexample: the job registered for botA survives a reload that
runs after botA was removed from the configuration. _load_schedules only
visits bots present and enabled in the current config, so the stale job
is never removed: after loading the config holding botA and then
reloading against the empty config, get_jobs still lists the botA job id. -/
theorem reload_prunes_stale_cex :
    (SchedulerManager.get_jobs
        (SchedulerManager.reload_schedules "UTC" []
          (SchedulerManager.load_schedules "UTC" [botA] []))).map
        SchedulerManager.Job.id
      = [SchedulerManager.jobId botA.bot_token]
    ∧ SchedulerManager.jobId botA.bot_token
        ∈ (SchedulerManager.get_jobs
            (SchedulerManager.reload_schedules "UTC" []
              (SchedulerManager.load_schedules "UTC" [botA] []))).map
            SchedulerManager.Job.id := by
  refine ⟨?_, ?_⟩ <;> decide

/-- Membership of a job id in the store is unchanged by removing a
different id. -/
theorem mem_removeJob (jobs : List SchedulerManager.Job)
    (jid other : String) (hne : jid ≠ other) :
    jid ∈ (SchedulerManager.removeJob jobs other).map SchedulerManager.Job.id
      ↔ jid ∈ jobs.map SchedulerManager.Job.id := by
  simp only [SchedulerManager.removeJob, List.mem_map]
  constructor
  · rintro ⟨j, hj, rfl⟩
    exact ⟨j, (List.mem_filter.mp hj).1, rfl⟩
  · rintro ⟨j, hj, rfl⟩
    refine ⟨j, List.mem_filter.mpr ⟨hj, ?_⟩, rfl⟩
    simpa using fun h => hne (by rw [h])

/-- Loading schedules preserves the presence of any job id already in the
store: an enabled bot with a different id removes and re-adds only its own
id, and an enabled bot with the same id re-adds it. -/
theorem load_schedules_preserves_mem (tz : String) :
    ∀ (bots : List SchedulerManager.BotCfg) (jobs : List SchedulerManager.Job)
      (jid : String),
      jid ∈ jobs.map SchedulerManager.Job.id →
      jid ∈ (SchedulerManager.load_schedules tz bots jobs).map
        SchedulerManager.Job.id := by
  intro bots
  induction bots with
  | nil => intro jobs jid h; simpa [SchedulerManager.load_schedules] using h
  | cons b rest ih =>
      intro jobs jid h
      cases hen : b.enabled with
      | false =>
          rw [load_schedules_cons_disabled tz b rest jobs hen]
          exact ih jobs jid h
      | true =>
          rw [load_schedules_cons_enabled tz b rest jobs hen]
          apply ih
          rw [List.map_append, List.mem_append]
          by_cases hid : jid = SchedulerManager.jobId b.bot_token
          · right; simp [SchedulerManager.mkJob, hid]
          · exact Or.inl ((mem_removeJob jobs jid _ hid).mpr h)

/-- C5 amended: reload re-registers a fresh trigger for every enabled
profile in the current configuration (its id is present afterwards), but
a job id belonging to no enabled profile of the current configuration is
left exactly as it was — stale triggers of bots that were removed from or
disabled in the configuration are not pruned by reload. -/
theorem reload_registers_enabled_and_keeps_stale :
    ∀ (tz : String) (bots : List SchedulerManager.BotCfg)
      (jobs : List SchedulerManager.Job) (jid : String),
      ((∀ b ∈ bots, b.enabled = true →
          SchedulerManager.jobId b.bot_token ≠ jid) →
        (jid ∈ (SchedulerManager.reload_schedules tz bots jobs).map
            SchedulerManager.Job.id
          ↔ jid ∈ jobs.map SchedulerManager.Job.id))
      ∧ (∀ b ∈ bots, b.enabled = true →
          SchedulerManager.jobId b.bot_token
            ∈ (SchedulerManager.reload_schedules tz bots jobs).map
                SchedulerManager.Job.id) := by
  intro tz bots
  induction bots with
  | nil =>
      intro jobs jid
      constructor
      · intro _h
        simp [SchedulerManager.reload_schedules, SchedulerManager.load_schedules]
      · intro b hb; simp at hb
  | cons b rest ih =>
      intro jobs jid
      constructor
      · intro hnone
        show jid ∈ (SchedulerManager.load_schedules tz (b :: rest) jobs).map
            SchedulerManager.Job.id ↔ _
        cases hen : b.enabled with
        | false =>
            rw [load_schedules_cons_disabled tz b rest jobs hen]
            have h1 := (ih jobs jid).1
              (fun b2 hb2 hen2 => hnone b2 (List.mem_cons_of_mem b hb2) hen2)
            simpa only [SchedulerManager.reload_schedules] using h1
        | true =>
            rw [load_schedules_cons_enabled tz b rest jobs hen]
            have hne : SchedulerManager.jobId b.bot_token ≠ jid :=
              hnone b (List.mem_cons_self b rest) hen
            have hrest := (ih (SchedulerManager.removeJob jobs
                (SchedulerManager.jobId b.bot_token)
                ++ [SchedulerManager.mkJob tz b]) jid).1
              (fun b2 hb2 hen2 => hnone b2 (List.mem_cons_of_mem b hb2) hen2)
            simp only [SchedulerManager.reload_schedules] at hrest
            rw [hrest]
            rw [List.map_append, List.mem_append]
            constructor
            · rintro (h | h)
              · exact (mem_removeJob jobs jid _ (fun h2 => hne h2.symm)).mp h
              · exfalso
                simp [SchedulerManager.mkJob] at h
                exact hne h.symm
            · intro h
              exact Or.inl ((mem_removeJob jobs jid _
                (fun h2 => hne h2.symm)).mpr h)
      · intro b2 hb2 hen2
        show SchedulerManager.jobId b2.bot_token
          ∈ (SchedulerManager.load_schedules tz (b :: rest) jobs).map
              SchedulerManager.Job.id
        rcases List.mem_cons.mp hb2 with hb2eq | hb2rest
        · subst hb2eq
          rw [load_schedules_cons_enabled tz b2 rest jobs hen2]
          apply load_schedules_preserves_mem
          simp [SchedulerManager.mkJob]
        · cases hen : b.enabled with
          | false =>
              rw [load_schedules_cons_disabled tz b rest jobs hen]
              have h2 := (ih jobs (SchedulerManager.jobId b2.bot_token)).2 b2
                hb2rest hen2
              simpa only [SchedulerManager.reload_schedules] using h2
          | true =>
              rw [load_schedules_cons_enabled tz b rest jobs hen]
              have h2 := (ih (SchedulerManager.removeJob jobs
                  (SchedulerManager.jobId b.bot_token)
                  ++ [SchedulerManager.mkJob tz b])
                (SchedulerManager.jobId b2.bot_token)).2 b2 hb2rest hen2
              simpa only [SchedulerManager.reload_schedules] using h2

/-- Witness for the amended C5 theorem at a concrete input: with an empty
current configuration, reload leaves the stale botA job id registered. -/
theorem reload_registers_enabled_and_keeps_stale_witness :
    SchedulerManager.jobId botA.bot_token
      ∈ (SchedulerManager.reload_schedules "UTC" []
          [SchedulerManager.mkJob "UTC" botA]).map SchedulerManager.Job.id
      ↔ SchedulerManager.jobId botA.bot_token
          ∈ ([SchedulerManager.mkJob "UTC" botA]).map SchedulerManager.Job.id :=
  (reload_registers_enabled_and_keeps_stale "UTC" []
      [SchedulerManager.mkJob "UTC" botA]
      (SchedulerManager.jobId botA.bot_token)).1 (by simp)

/-! ### Claim theorems: State Tracker persistence -/

/-- C9 counterexample: a storage I/O failure while persisting state does
not propagate. With the underlying write raising a disk-full error, an
update_state mutation still returns normally (the ok branch) with the
in-memory mapping updated — _save_states catches every Exception and only
logs it, so no failure signal reaches the caller. -/
theorem update_state_swallows_write_error_cex :
    BotStateManager.update_state (fun _ => none) "tok"
        (fun s => { s with last_error := "boom" }) (.error "disk full")
      = .ok (BotStateManager.apply_update (fun _ => none) "tok"
          (fun s => { s with last_error := "boom" }))
    ∧ (BotStateManager.save_states (.error "disk full") = .ok ()) :=
  ⟨rfl, rfl⟩

/-- C9 amended: every State Tracker mutation returns normally whatever the
outcome of the underlying storage write: _save_states catches the I/O
failure and logs it, the in-memory read-modify-write is applied, and no
failure signal is propagated to the caller. -/
theorem update_state_always_ok :
    ∀ (states : BotStateManager.States) (token : String)
      (u : PyBotState → PyBotState) (write : Except String Unit),
      BotStateManager.update_state states token u write
        = .ok (BotStateManager.apply_update states token u) := by
  intro states token u write
  cases write <;> rfl

/-! ### Claim theorems: Format Normalizer idempotence -/

/-- C7: convert_to_ogg is idempotent. If a first call on a source path
returns an output path (through any of its three success branches: the
already-canonical fast path, the cache hit, or a successful conversion
that writes the cache file), then a second call on the same source path —
under any ffmpeg oracle whatsoever — returns the identical output path,
leaves the filesystem unchanged, and does not invoke the external
converter. -/
theorem convert_to_ogg_idempotent :
    ∀ (o1 o2 : AudioConverter.FfmpegOutcome) (fs : String → Bool)
      (p : AudioConverter.PyPath) (out : String) (fs1 : String → Bool)
      (invoked : Bool),
      AudioConverter.convert_to_ogg o1 fs p = .ok (out, fs1, invoked) →
      AudioConverter.convert_to_ogg o2 fs1 p = .ok (out, fs1, false) := by
  intro o1 o2 fs p out fs1 invoked h
  by_cases hex : fs p.render = true
  · by_cases hfmt : AudioConverter.pyLower p.suffix = ".ogg"
        ∨ AudioConverter.pyLower p.suffix = ".opus"
    · simp only [AudioConverter.convert_to_ogg, hex, hfmt, not_true_eq_false,
        if_false, if_true, Except.ok.injEq, Prod.mk.injEq] at h
      obtain ⟨hout, hfs, _⟩ := h
      subst hout; subst hfs
      simp [AudioConverter.convert_to_ogg, hex, hfmt]
    · by_cases hcache :
        fs (AudioConverter.PyPath.render
          ⟨AudioConverter.temp_dir, p.stem, ".ogg"⟩) = true
      · simp only [AudioConverter.convert_to_ogg, hex, hfmt, hcache,
          not_true_eq_false, if_false, if_true, Except.ok.injEq,
          Prod.mk.injEq] at h
        obtain ⟨hout, hfs, _⟩ := h
        subst hout; subst hfs
        simp [AudioConverter.convert_to_ogg, hex, hfmt, hcache]
      · cases o1 with
        | timeout =>
            simp [AudioConverter.convert_to_ogg, hex, hfmt, hcache] at h
        | failed stderr =>
            simp [AudioConverter.convert_to_ogg, hex, hfmt, hcache] at h
        | success =>
            simp only [AudioConverter.convert_to_ogg, hex, hfmt, hcache,
              not_true_eq_false, if_false, if_true, Bool.false_eq_true,
              Except.ok.injEq, Prod.mk.injEq] at h
            obtain ⟨hout, hfs, _⟩ := h
            subst hout
            have hp2 : fs1 p.render = true := by
              rw [← hfs]; simp [hex]
            have hc2 : fs1 (AudioConverter.PyPath.render
                ⟨AudioConverter.temp_dir, p.stem, ".ogg"⟩) = true := by
              rw [← hfs]; simp
            simp [AudioConverter.convert_to_ogg, hp2, hfmt, hc2]
  · simp [AudioConverter.convert_to_ogg, hex] at h

/-- A concrete source audio path. -/
def pA : AudioConverter.PyPath :=
  { parent := "/music", stem := "a", suffix := ".mp3" }

/-- A filesystem holding only the source file. -/
def fsSrc : String → Bool := fun q => q == "/music/a.mp3"

/-- The filesystem after the first successful conversion of pA: the cache
file exists alongside the source. -/
def fsConverted : String → Bool :=
  fun q => (q == "/app/data/.audio_cache/a.ogg") || fsSrc q

/-- Witness for C7 at a concrete input: after a successful first
conversion of the mp3 source, a second call returns the same cached path
with no converter invocation, whatever the ffmpeg oracle would do. -/
theorem convert_to_ogg_idempotent_witness :
    AudioConverter.convert_to_ogg (.failed "boom") fsConverted pA
      = .ok ("/app/data/.audio_cache/a.ogg", fsConverted, false) :=
  convert_to_ogg_idempotent .success (.failed "boom") fsSrc pA
    "/app/data/.audio_cache/a.ogg" fsConverted true (by rfl)

/-! ### Claim theorems: Delivery Engine -/

/-- A per-call environment whose first two network attempts raise and
whose third (and any later) attempt succeeds; validation and conversion
pass. -/
def env3 : TelegramBotManager.FileEnv :=
  { valid := true
    conv := .ok "/app/data/.audio_cache/a.ogg"
    attempt := fun n => if n ≤ 2 then .failed "Connection lost" else .success }

/-- A per-call environment whose payload fails validation, so send_audio
reports failure without any network attempt. -/
def envInvalid : TelegramBotManager.FileEnv :=
  { valid := false
    conv := .ok "/app/data/.audio_cache/a.ogg"
    attempt := fun _ => .success }

/-- An empty initial tracker: no persisted state, no mutations yet. -/
def st0 : TelegramBotManager.Tracker :=
  { states := fun _ => none, log := [] }

/-- C3: against a destination whose sends fail twice and succeed on the
third attempt with max_retries three, send_audio returns true; on the
successful attempt the state is updated — last_sent_file set to the
payload, last_run set to the current timestamp, last_error cleared to
empty — and exactly three attempts are performed. With a larger budget of
five the attempt count is still three: success short-circuits the
remaining attempts. -/
theorem send_audio_succeeds_on_third_attempt :
    ∀ (bots : String → Bool) (st : TelegramBotManager.Tracker)
      (now token chat_id file_path : String),
      bots token = true →
      (TelegramBotManager.send_audio bots env3 now token chat_id file_path
          3 st).1 = true
      ∧ (TelegramBotManager.send_audio bots env3 now token chat_id file_path
          3 st).2.1.states token
          = some { last_run := some now, last_sent_file := some file_path
                   last_error := "" }
      ∧ (TelegramBotManager.send_audio bots env3 now token chat_id file_path
          3 st).2.2 = 3
      ∧ (TelegramBotManager.send_audio bots env3 now token chat_id file_path
          5 st).2.2 = 3 := by
  intro bots st now token chat_id file_path hb
  have hun : ∀ mr st2,
      TelegramBotManager.send_audio bots env3 now token chat_id file_path
        mr st2
      = TelegramBotManager.sendLoop env3 now token file_path mr 1 mr st2 := by
    intro mr st2
    simp [TelegramBotManager.send_audio, hb, env3]
  refine ⟨?_, ?_, ?_, ?_⟩ <;>
    rw [hun] <;>
    simp [TelegramBotManager.sendLoop, env3,
      TelegramBotManager.set_last_sent_file, TelegramBotManager.set_last_run,
      TelegramBotManager.clear_error, TelegramBotManager.set_last_error,
      TelegramBotManager.mutate, BotStateManager.apply_update, default_state]

/-- Witness for C3 at a concrete input: a registered token, an empty
initial tracker, concrete timestamp and payload. -/
theorem send_audio_succeeds_on_third_attempt_witness :
    (TelegramBotManager.send_audio (fun t => t == "tok") env3
        "2024-01-15T09:00:00" "tok" "chat1" "/app/data/audio/a.mp3"
        3 st0).1 = true
    ∧ (TelegramBotManager.send_audio (fun t => t == "tok") env3
        "2024-01-15T09:00:00" "tok" "chat1" "/app/data/audio/a.mp3"
        3 st0).2.1.states "tok"
        = some { last_run := some "2024-01-15T09:00:00"
                 last_sent_file := some "/app/data/audio/a.mp3"
                 last_error := "" }
    ∧ (TelegramBotManager.send_audio (fun t => t == "tok") env3
        "2024-01-15T09:00:00" "tok" "chat1" "/app/data/audio/a.mp3"
        3 st0).2.2 = 3
    ∧ (TelegramBotManager.send_audio (fun t => t == "tok") env3
        "2024-01-15T09:00:00" "tok" "chat1" "/app/data/audio/a.mp3"
        5 st0).2.2 = 3 :=
  send_audio_succeeds_on_third_attempt (fun t => t == "tok") st0
    "2024-01-15T09:00:00" "tok" "chat1" "/app/data/audio/a.mp3" (by rfl)

/-- The Boolean result of the retry loop ignores the tracker it starts
from. -/
theorem sendLoop_fst (env : TelegramBotManager.FileEnv)
    (now token file_path : String) (max_retries : Nat) :
    ∀ (r a : Nat) (st : TelegramBotManager.Tracker),
      (TelegramBotManager.sendLoop env now token file_path max_retries
          a r st).1
        = TelegramBotManager.sendLoopVerdict env max_retries a r := by
  intro r
  induction r with
  | zero => intro a st; rfl
  | succ n ih =>
      intro a st
      simp only [TelegramBotManager.sendLoop,
        TelegramBotManager.sendLoopVerdict]
      cases env.attempt a with
      | success => rfl
      | timeout => by_cases h : a < max_retries <;> simp [h, ih]
      | failed msg => by_cases h : a < max_retries <;> simp [h, ih]

/-- The Boolean result of send_audio at the default budget of three
attempts is the pure verdict of its environment, whatever tracker it
starts from. -/
theorem send_audio_fst (bots : String → Bool)
    (env : TelegramBotManager.FileEnv)
    (now token chat_id file_path : String)
    (st : TelegramBotManager.Tracker) :
    (TelegramBotManager.send_audio bots env now token chat_id file_path
        3 st).1
      = TelegramBotManager.sendVerdict bots env token := by
  simp only [TelegramBotManager.send_audio, TelegramBotManager.sendVerdict]
  by_cases hb : bots token
  · simp only [hb, not_true_eq_false, if_false]
    by_cases hv : env.valid
    · simp only [hv, not_true_eq_false, if_false]
      cases hc : env.conv with
      | error e => rfl
      | ok ogg => exact sendLoop_fst env now token file_path 3 3 1 st
    · simp [hv]
  · simp [hb]

/-- The running fold of send_multiple_audio adds to any starting count the
number of files whose environment verdict is success. -/
theorem send_multiple_audio_foldl (bots : String → Bool)
    (fenv : String → TelegramBotManager.FileEnv)
    (now token chat_id : String) :
    ∀ (file_paths : List String) (n : Nat)
      (st : TelegramBotManager.Tracker),
      (file_paths.foldl
        (fun acc file_path =>
          let res := TelegramBotManager.send_audio bots (fenv file_path) now
            token chat_id file_path 3 acc.2
          (acc.1 + (if res.1 then 1 else 0), res.2.1))
        (n, st)).1
      = n + file_paths.countP
          (fun f => TelegramBotManager.sendVerdict bots (fenv f) token) := by
  intro file_paths
  induction file_paths with
  | nil => intro n st; simp
  | cons f rest ih =>
      intro n st
      rw [List.foldl_cons]
      simp only []
      rw [ih, List.countP_cons]
      rw [send_audio_fst bots (fenv f) now token chat_id f st]
      cases TelegramBotManager.sendVerdict bots (fenv f) token <;> simp <;> omega

/-- C4: send_multiple_audio attempts every item of the batch sequentially
in list order; its success count equals the number of items whose own
send_audio call succeeds (a pure function of each item, independent of
the tracker and of earlier outcomes), hence is at most the length of the
input; and a forced failure at any position k still leaves the items
after k attempted and counted — the count over l1 followed by a failing
item followed by l2 is the count over l1 plus the count over l2. -/
theorem send_many_counts_all_items :
    ∀ (bots : String → Bool) (fenv : String → TelegramBotManager.FileEnv)
      (now token chat_id : String) (file_paths : List String)
      (st : TelegramBotManager.Tracker),
      (TelegramBotManager.send_multiple_audio bots fenv now token chat_id
          file_paths st).1
        = file_paths.countP
            (fun f => TelegramBotManager.sendVerdict bots (fenv f) token)
      ∧ (TelegramBotManager.send_multiple_audio bots fenv now token chat_id
          file_paths st).1 ≤ file_paths.length
      ∧ (∀ (l1 : List String) (f : String) (l2 : List String)
          (st2 : TelegramBotManager.Tracker),
          TelegramBotManager.sendVerdict bots (fenv f) token = false →
          (TelegramBotManager.send_multiple_audio bots fenv now token chat_id
              (l1 ++ f :: l2) st).1
            = (TelegramBotManager.send_multiple_audio bots fenv now token
                chat_id l1 st2).1
              + (TelegramBotManager.send_multiple_audio bots fenv now token
                  chat_id l2 st2).1) := by
  intro bots fenv now token chat_id file_paths st
  have hcount : ∀ (fps : List String) (st2 : TelegramBotManager.Tracker),
      (TelegramBotManager.send_multiple_audio bots fenv now token chat_id
          fps st2).1
        = fps.countP
            (fun f => TelegramBotManager.sendVerdict bots (fenv f) token) := by
    intro fps st2
    have h := send_multiple_audio_foldl bots fenv now token chat_id fps 0 st2
    simpa [TelegramBotManager.send_multiple_audio] using h
  refine ⟨hcount file_paths st, ?_, ?_⟩
  · rw [hcount file_paths st]
    exact List.countP_le_length _
  · intro l1 f l2 st2 hf
    rw [hcount (l1 ++ f :: l2) st, hcount l1 st2, hcount l2 st2]
    rw [List.countP_append, List.countP_cons, hf]
    simp

/-- A per-file environment map for the C4 witness: the file named bad
fails validation, every other file succeeds on its third attempt. -/
def fenvW : String → TelegramBotManager.FileEnv :=
  fun f => if f = "bad" then envInvalid else env3

/-- Witness for C4 at a concrete input: in a batch of three files whose
middle item fails validation, the two items around it are still counted
and the batch count is the sum of the counts of the two good sublists. -/
theorem send_many_counts_all_items_witness :
    (TelegramBotManager.send_multiple_audio (fun t => t == "tok") fenvW
        "2024-01-15T09:00:00" "tok" "chat1" ["g1", "bad", "g2"] st0).1
      = (TelegramBotManager.send_multiple_audio (fun t => t == "tok") fenvW
          "2024-01-15T09:00:00" "tok" "chat1" ["g1"] st0).1
        + (TelegramBotManager.send_multiple_audio (fun t => t == "tok") fenvW
            "2024-01-15T09:00:00" "tok" "chat1" ["g2"] st0).1 :=
  (send_many_counts_all_items (fun t => t == "tok") fenvW
      "2024-01-15T09:00:00" "tok" "chat1" (["g1"] ++ "bad" :: ["g2"])
      st0).2.2 ["g1"] "bad" ["g2"] st0 (by rfl)

/-- When the retry loop is entered with its source invariant (attempt
index plus remaining iterations equals max_retries plus one) and at least
one iteration, a false result always records an error: the mutation trace
strictly grows. -/
theorem sendLoop_false_mutates (env : TelegramBotManager.FileEnv)
    (now token file_path : String) (max_retries : Nat) :
    ∀ (r a : Nat) (st : TelegramBotManager.Tracker),
      a + r = max_retries + 1 → 1 ≤ r →
      (TelegramBotManager.sendLoop env now token file_path max_retries
          a r st).1 = false →
      st.log.length
        < (TelegramBotManager.sendLoop env now token file_path max_retries
            a r st).2.1.log.length := by
  intro r
  induction r with
  | zero => intro a st _ h1 _; omega
  | succ n ih =>
      intro a st hinv _ hfalse
      simp only [TelegramBotManager.sendLoop] at hfalse ⊢
      cases hat : env.attempt a with
      | success => rw [hat] at hfalse; simp at hfalse
      | timeout =>
          rw [hat] at hfalse
          by_cases hlt : a < max_retries
          · simp only [hlt, if_true] at hfalse ⊢
            have hn : 1 ≤ n := by omega
            exact ih (a + 1) st (by omega) hn hfalse
          · simp only [hlt, if_false] at hfalse ⊢
            simp [TelegramBotManager.set_last_error,
              TelegramBotManager.mutate]
      | failed msg =>
          rw [hat] at hfalse
          by_cases hlt : a < max_retries
          · simp only [hlt, if_true] at hfalse ⊢
            have hn : 1 ≤ n := by omega
            exact ih (a + 1) st (by omega) hn hfalse
          · simp only [hlt, if_false] at hfalse ⊢
            simp [TelegramBotManager.set_last_error,
              TelegramBotManager.mutate]

/-- C10: for a bot token absent from the registered-bot mapping,
send_audio returns false immediately — for every validation, conversion
and network environment alike, so none of those steps is consulted — with
the tracker returned exactly as given (no error recorded, no mutation)
and zero network attempts. Conversely, with at least one retry permitted
(the source default is three), an unknown token is the only failure path
that leaves the mutation trace unchanged: a false result with an
unchanged trace implies the token was not registered. -/
theorem send_audio_unknown_token_no_state :
    ∀ (bots : String → Bool) (env : TelegramBotManager.FileEnv)
      (now token chat_id file_path : String) (max_retries : Nat)
      (st : TelegramBotManager.Tracker),
      (bots token = false →
        TelegramBotManager.send_audio bots env now token chat_id file_path
          max_retries st = (false, st, 0))
      ∧ (1 ≤ max_retries →
          (TelegramBotManager.send_audio bots env now token chat_id file_path
              max_retries st).1 = false →
          (TelegramBotManager.send_audio bots env now token chat_id file_path
              max_retries st).2.1.log = st.log →
          bots token = false) := by
  intro bots env now token chat_id file_path max_retries st
  constructor
  · intro hb
    simp [TelegramBotManager.send_audio, hb]
  · intro hmr hfalse hlog
    by_cases hb : bots token = true
    · exfalso
      by_cases hv : env.valid
      · cases hc : env.conv with
        | error e =>
            simp only [TelegramBotManager.send_audio, hb, hv, hc,
              not_true_eq_false, if_false] at hlog
            have := congrArg List.length hlog
            simp [TelegramBotManager.set_last_error,
              TelegramBotManager.mutate] at this
        | ok ogg =>
            have hloop := sendLoop_false_mutates env now token file_path
              max_retries max_retries 1 st (by omega) hmr
            simp only [TelegramBotManager.send_audio, hb, hv, hc,
              not_true_eq_false, if_false] at hfalse hlog
            have hlen := hloop hfalse
            rw [hlog] at hlen
            omega
      · simp only [TelegramBotManager.send_audio, hb, hv,
          not_true_eq_false, not_false_eq_true, if_false, if_true] at hlog
        have := congrArg List.length hlog
        simp [TelegramBotManager.set_last_error,
          TelegramBotManager.mutate] at this
    · exact Bool.not_eq_true _ ▸ Bool.of_not_eq_true hb

/-- Witness for C10 at a concrete input: a mapping registering no token
at all makes send_audio return false with the empty tracker untouched and
zero attempts, and the converse direction recovers that the token is
unregistered. -/
theorem send_audio_unknown_token_no_state_witness :
    TelegramBotManager.send_audio (fun _ => false) env3
        "2024-01-15T09:00:00" "tok" "chat1" "/app/data/audio/a.mp3" 3 st0
      = (false, st0, 0)
    ∧ (fun (_ : String) => false) "tok" = false :=
  ⟨(send_audio_unknown_token_no_state (fun _ => false) env3
      "2024-01-15T09:00:00" "tok" "chat1" "/app/data/audio/a.mp3" 3 st0).1
      (by rfl),
   (send_audio_unknown_token_no_state (fun _ => false) env3
      "2024-01-15T09:00:00" "tok" "chat1" "/app/data/audio/a.mp3" 3 st0).2
      (by decide) (by rfl) (by rfl)⟩
